import Mathlib

/-!
Shallow embedding of `src/lstm1.py`, an LSTM language-model training
script (PTB-style, after Zaremba et al.).  Machine floats are modelled by
exact rationals (ℚ); the exponential in the perplexity computation is
modelled by `Real.exp`.  Framework-computed quantities (per-example
losses, logits) are inputs to the epoch driver, exactly as `session.run`
returns them to the Python loop.
-/

namespace Lstm1

/-- Hyperparameter record: the fields shared by `SmallConfig`,
`MediumConfig`, `LargeConfig` and `TestConfig` in `lstm1.py`. -/
structure Config where
  init_scale : ℚ
  learning_rate : ℚ
  max_grad_norm : ℚ
  num_layers : ℕ
  num_steps : ℕ
  hidden_size : ℕ
  max_epoch : ℕ
  max_max_epoch : ℕ
  keep_prob : ℚ
  lr_decay : ℚ
  batch_size : ℕ
  vocab_size : ℕ
deriving DecidableEq, Repr

/-- Python `class SmallConfig` of lstm1.py. -/
def SmallConfig : Config :=
  { init_scale := 1/10
    learning_rate := 1
    max_grad_norm := 5
    num_layers := 2
    num_steps := 20
    hidden_size := 200
    max_epoch := 4
    max_max_epoch := 13
    keep_prob := 1
    lr_decay := 1/2
    batch_size := 20
    vocab_size := 3 }

/-- Python `class MediumConfig` of lstm1.py. -/
def MediumConfig : Config :=
  { init_scale := 5/100
    learning_rate := 1
    max_grad_norm := 5
    num_layers := 2
    num_steps := 35
    hidden_size := 650
    max_epoch := 6
    max_max_epoch := 39
    keep_prob := 1/2
    lr_decay := 8/10
    batch_size := 20
    vocab_size := 2 }

/-- Python `class LargeConfig` of lstm1.py; `lr_decay = 1 / 1.15`. -/
def LargeConfig : Config :=
  { init_scale := 4/100
    learning_rate := 1
    max_grad_norm := 10
    num_layers := 2
    num_steps := 40
    hidden_size := 1500
    max_epoch := 14
    max_max_epoch := 55
    keep_prob := 35/100
    lr_decay := 1 / (115/100)
    batch_size := 20
    vocab_size := 2 }

/-- Python `class TestConfig` of lstm1.py. -/
def TestConfig : Config :=
  { init_scale := 1/10
    learning_rate := 1
    max_grad_norm := 1
    num_layers := 1
    num_steps := 2
    hidden_size := 2
    max_epoch := 1
    max_max_epoch := 1
    keep_prob := 1
    lr_decay := 1/2
    batch_size := 20
    vocab_size := 2 }

/-- The four configuration classes shipped with the script. -/
def shippedConfigs : List Config :=
  [SmallConfig, MediumConfig, LargeConfig, TestConfig]

/-- The names of the command-line flags the script declares
(`flags.DEFINE_string` calls: "model" and "VECTOR_SIZE"). -/
def declaredFlagNames : List String := ["model", "VECTOR_SIZE"]

/-- Function `get_config()` of lstm1.py, with the `FLAGS.model` string made an
argument.  The `else` branch raises `ValueError("Invalid model: %s",
FLAGS.model)`; we model the exception as an `Except.error` carrying the
format string paired with the offending flag value. -/
def get_config (model : String) : Except (String × String) Config :=
  if model = "small" then .ok SmallConfig
  else if model = "medium" then .ok MediumConfig
  else if model = "large" then .ok LargeConfig
  else if model = "test" then .ok TestConfig
  else .error ("Invalid model: %s", model)

/-- The decay factor computed in `main` before epoch `i`:
`lr_decay = config.lr_decay ** max(i - config.max_epoch, 0.0)`.
Python `i - config.max_epoch` is integer subtraction, so the exponent is
`max(i - max_epoch, 0)`, modelled with ℤ subtraction and `Int.toNat`. -/
def epoch_lr_decay (c : Config) (i : ℕ) : ℚ :=
  c.lr_decay ^ (max ((i : ℤ) - (c.max_epoch : ℤ)) 0).toNat

/-- The value passed to `m.assign_lr(session, config.learning_rate *
lr_decay)` before epoch `i`, which `assign_lr` stores into the model's
learning-rate variable unchanged. -/
def assigned_lr (c : Config) (i : ℕ) : ℚ :=
  c.learning_rate * epoch_lr_decay c i

/-- The recurrent-cell constructors used by `PTBModel.__init__`:
`BasicLSTMCell(size, forget_bias=0.0)` and
`DropoutWrapper(cell, output_keep_prob=keep_prob)`. -/
inductive RNNCell where
  | basicLSTM (num_units : ℕ) (forget_bias : ℚ)
  | dropoutWrapper (inner : RNNCell) (output_keep_prob : ℚ)
deriving DecidableEq, Repr

/-- Cell construction in `PTBModel.__init__`: a `BasicLSTMCell`, wrapped
in a `DropoutWrapper` only when `is_training and config.keep_prob < 1`,
then replicated `num_layers` times by `MultiRNNCell([lstm_cell] *
config.num_layers)`. -/
def buildCellStack (is_training : Bool) (c : Config) : List RNNCell :=
  let lstm_cell := RNNCell.basicLSTM c.hidden_size 0
  let wrapped :=
    if is_training = true ∧ c.keep_prob < 1 then
      RNNCell.dropoutWrapper lstm_cell c.keep_prob
    else lstm_cell
  List.replicate c.num_layers wrapped

/-- Guard `if is_training and config.keep_prob < 1: inputs =
tf.nn.dropout(inputs, config.keep_prob)`: whether dropout is applied to
the input features. -/
def inputDropoutApplied (is_training : Bool) (c : Config) : Prop :=
  is_training = true ∧ c.keep_prob < 1

/-- A cell whose output passes through dropout: a `DropoutWrapper`
around a `BasicLSTMCell`. -/
def isDropoutWrappedLSTM : RNNCell → Prop
  | .dropoutWrapper (.basicLSTM _ _) _ => True
  | _ => False

/-- The property claim C4 asserts of the training-mode model: a stack of
`num_layers` LSTM cells, each with dropout on its output, and dropout on
the input features. -/
def trainingDropoutEverywhere (c : Config) : Prop :=
  (buildCellStack true c).length = c.num_layers
  ∧ (∀ cell ∈ buildCellStack true c, isDropoutWrappedLSTM cell)
  ∧ inputDropoutApplied true c

/-- Symbolic tensors of the unrolled-RNN section of `PTBModel.__init__`:
`input t` is `inputs[:, t, :]`, `initialState` is
`cell.zero_state(batch_size, ...)`, and `cellOut`/`cellState` are the
two components of `cell(inputs[:, time_step, :], state)`. -/
inductive TExpr where
  | input (t : ℕ)
  | initialState
  | cellOut (x : TExpr) (s : TExpr)
  | cellState (x : TExpr) (s : TExpr)
deriving DecidableEq, Repr

/-- The unrolling loop `for time_step in range(num_steps):
(cell_output, state) = cell(inputs[:, time_step, :], state);
outputs.append(cell_output)`, returning the `outputs` list and the final
`state`. -/
def unrollLoop : ℕ → List TExpr × TExpr
  | 0 => ([], .initialState)
  | n + 1 =>
    let p := unrollLoop n
    (p.1 ++ [.cellOut (.input n) p.2], .cellState (.input n) p.2)

/-- The state reached after `t` cell applications in time-step order. -/
def stateExpr : ℕ → TExpr
  | 0 => .initialState
  | t + 1 => .cellState (.input t) (stateExpr t)

/-- Node `logits = tf.matmul(output, softmax_w) + softmax_b` where `output`
reshapes `tf.concat(1, outputs)`: one affine map, recorded by its two
variable names, applied to the concatenation of all cell outputs. -/
structure LogitsGraph where
  weight_var : String
  bias_var : String
  concatenated_outputs : List TExpr
deriving DecidableEq, Repr

/-- The logits node built by `PTBModel.__init__` for `num_steps`
unrolled time steps. -/
def buildLogits (num_steps : ℕ) : LogitsGraph :=
  ⟨"softmax_w", "softmax_b", (unrollLoop num_steps).1⟩

/-- Guard `if time_step > 0: tf.get_variable_scope().reuse_variables()`:
whether variable reuse is enabled at each successive time step. -/
def reuseFlags (num_steps : ℕ) : List Bool :=
  (List.range num_steps).map (fun t => decide (0 < t))

/-- One row of the flattened batch inside `run_epoch`: the logits row
for one (batch element, time step) pair together with its integer target
label from `labels = tf.reshape(y, [-1])`. -/
structure BatchRow where
  logits : List ℚ
  label : ℕ
deriving DecidableEq, Repr

/-- What one `session.run` over one batch hands back to the Python loop
in `run_epoch`: the per-example sequence losses
(`sequence_loss_by_example`) feeding the `cost` node, and the logits
rows with their target labels feeding the `in_top_k` count. -/
structure Batch where
  exampleLosses : List ℚ
  rows : List BatchRow
deriving DecidableEq, Repr

/-- The `cost` node of `PTBModel`: `tf.reduce_sum(loss) / batch_size`. -/
def batchCost (batch_size : ℕ) (b : Batch) : ℚ :=
  b.exampleLosses.sum / (batch_size : ℚ)

/-- Predicate `tf.nn.in_top_k(out_logits, labels, 1)` for one row: true when no
logit strictly exceeds the target's logit (ties count as in the top 1);
an out-of-range target is not in the top 1. -/
def in_top_1 (row : BatchRow) : Bool :=
  match row.logits.get? row.label with
  | none => false
  | some v => row.logits.all (fun u => u ≤ v)

/-- Count `eval_correct = tf.reduce_sum(tf.cast(correct, tf.int32))`: the
number of rows of the batch whose top-1 logit matches the target. -/
def batchCorrectCount (b : Batch) : ℕ :=
  (b.rows.filter (fun r => in_top_1 r)).length

/-- The mutable accumulators of `run_epoch`'s loop: `costs`, `iters`,
`true_count`. -/
structure EpochAcc where
  costs : ℚ
  iters : ℕ
  true_count : ℕ
deriving DecidableEq, Repr

/-- One loop iteration of `run_epoch`: `costs += cost`,
`iters += m.num_steps`, `true_count += session.run(eval_correct)`. -/
def runEpochStep (num_steps batch_size : ℕ) (a : EpochAcc) (b : Batch) : EpochAcc :=
  { costs := a.costs + batchCost batch_size b
    iters := a.iters + num_steps
    true_count := a.true_count + batchCorrectCount b }

/-- The accumulator after `run_epoch`'s loop over every batch the data
yields, starting from `costs = 0.0; iters = 0; true_count = 0`. -/
def runEpochTotals (num_steps batch_size : ℕ) (batches : List Batch) : EpochAcc :=
  batches.foldl (runEpochStep num_steps batch_size) ⟨0, 0, 0⟩

/-- Return value `perplexity = np.exp(costs / iters)`, the value `run_epoch`
returns. -/
noncomputable def run_epoch (num_steps batch_size : ℕ) (batches : List Batch) : ℝ :=
  Real.exp (((runEpochTotals num_steps batch_size batches).costs : ℝ)
    / ((runEpochTotals num_steps batch_size batches).iters : ℝ))

/-- Quotient `precision = true_count / (iters * m.batch_size)` (true division,
via `from __future__ import division`). -/
def runEpochPrecision (num_steps batch_size : ℕ) (batches : List Batch) : ℚ :=
  ((runEpochTotals num_steps batch_size batches).true_count : ℚ)
    / (((runEpochTotals num_steps batch_size batches).iters : ℚ) * (batch_size : ℚ))

/-- The end-of-epoch summary write of `run_epoch`:
`tf.merge_summary([perplexity_summary, accuracy_summary])`, a
"perplexity" scalar followed by an "accuracy" scalar. -/
noncomputable def runEpochEndSummaries (num_steps batch_size : ℕ)
    (batches : List Batch) : List (String × ℝ) :=
  [("perplexity", run_epoch num_steps batch_size batches),
   ("accuracy", (runEpochPrecision num_steps batch_size batches : ℝ))]

/-- Observable actions of `main`, one constructor per kind of step the
script performs. -/
inductive Event where
  | readData (filename : String)
  | buildModel (name : String) (is_training : Bool)
  | initVariables
  | makeSummaryWriter (logdir : String)
  | assignLr (epoch : ℕ)
  | trainEpoch (epoch : ℕ)
  | validEpoch (epoch : ℕ)
  | testEpoch
deriving DecidableEq, Repr

/-- The five `read_data.read_data(filename)` calls of `main`, in source
order: the three training files, the validation file, the test file. -/
def dataLoadEvents : List Event :=
  [.readData "Data11-17.txt", .readData "valid18-20.txt",
   .readData "Data21-25.txt", .readData "Data4-10.txt",
   .readData "Data26-29.txt"]

/-- Graph construction and session setup of `main`: the three
`PTBModel`s (`m` training, `mvalid`, `mtest`),
`tf.initialize_all_variables().run()`, and
`tf.train.SummaryWriter("train/lstm3s", session.graph)`. -/
def graphBuildEvents : List Event :=
  [.buildModel "m" true, .buildModel "mvalid" false,
   .buildModel "mtest" false, .initVariables,
   .makeSummaryWriter "train/lstm3s"]

/-- The body of iteration `i` of `for i in range(config.max_max_epoch)`:
assign the decayed learning rate, run one training epoch, then one
validation epoch. -/
def epochBody (i : ℕ) : List Event :=
  [.assignLr i, .trainEpoch i, .validEpoch i]

/-- The training loop unrolled: iteration 0 first. -/
def epochLoopEvents : ℕ → List Event
  | 0 => []
  | n + 1 => epochLoopEvents n ++ epochBody n

/-- The full ordered action trace of `main` when the selected config has
`max_max_epoch` epochs: loads, graph setup, the loop, then the single
test epoch. -/
def mainEvents (max_max_epoch : ℕ) : List Event :=
  dataLoadEvents ++ graphBuildEvents ++ epochLoopEvents max_max_epoch
    ++ [Event.testEpoch]

/-- Truncating step `test_data = test_data[0:8000,]`: the test set keeps its first 8000
rows. -/
def truncateTestRows {α : Type} (rows : List α) : List α :=
  rows.take 8000

/-- Phase of an event: data loading 0, graph and session setup 1,
training loop 2, final test 3. -/
def Event.phase : Event → ℕ
  | .readData _ => 0
  | .buildModel _ _ => 1
  | .initVariables => 1
  | .makeSummaryWriter _ => 1
  | .assignLr _ => 2
  | .trainEpoch _ => 2
  | .validEpoch _ => 2
  | .testEpoch => 3

/-- The filename of a read event, if any. -/
def Event.readFile : Event → Option String
  | .readData f => some f
  | _ => none

/-- A heap of allocated configuration objects; Python object identity
is the index into the heap. -/
structure ConfigStore where
  heap : List Config
deriving DecidableEq, Repr

/-- Instantiating a config class (`SmallConfig()` etc.) allocates a new
object and returns its reference. -/
def ConfigStore.alloc (s : ConfigStore) (c : Config) : ConfigStore × ℕ :=
  (⟨s.heap ++ [c]⟩, s.heap.length)

/-- Reading the object behind a reference. -/
def ConfigStore.read (s : ConfigStore) (r : ℕ) : Option Config :=
  s.heap.get? r

/-- An attribute assignment `obj.field = v` mutates only the object
behind `r`. -/
def ConfigStore.write (s : ConfigStore) (r : ℕ) (f : Config → Config) :
    ConfigStore :=
  match s.heap.get? r with
  | some c => ⟨s.heap.set r (f c)⟩
  | none => s

/-- The config setup of `main`: `config = get_config(); eval_config =
get_config(); eval_config.batch_size = 1; eval_config.num_steps = 1`,
run on an initially empty heap.  Returns the final heap and the
references held by `config` and `eval_config`. -/
def mainConfigSetup (model : String) :
    Except (String × String) (ConfigStore × ℕ × ℕ) := do
  let c ← get_config model
  let c2 ← get_config model
  let p1 := ConfigStore.alloc ⟨[]⟩ c
  let p2 := p1.1.alloc c2
  let s := (p2.1.write p2.2 (fun cc => { cc with batch_size := 1 })).write
    p2.2 (fun cc => { cc with num_steps := 1 })
  pure (s, p1.2, p2.2)

/-- The tensor dimensions `PTBModel.__init__` takes from its config:
`self.batch_size = config.batch_size; self.num_steps =
config.num_steps`. -/
structure ModelDims where
  batch_size : ℕ
  num_steps : ℕ
deriving DecidableEq, Repr

/-- The dimensions a `PTBModel` built from config `c` uses. -/
def modelDims (c : Config) : ModelDims :=
  ⟨c.batch_size, c.num_steps⟩

end Lstm1

namespace Lstm1

/-- C3: `get_config` maps "small"/"medium"/"large"/"test" to the four
config classes and errors, naming the invalid value, on every other flag
value; "model" is among the declared flags. -/
theorem get_config_dispatch :
    get_config "small" = .ok SmallConfig
    ∧ get_config "medium" = .ok MediumConfig
    ∧ get_config "large" = .ok LargeConfig
    ∧ get_config "test" = .ok TestConfig
    ∧ (∀ s : String, s ∉ (["small", "medium", "large", "test"] : List String) →
        get_config s = .error ("Invalid model: %s", s))
    ∧ "model" ∈ declaredFlagNames := by
  refine ⟨rfl, rfl, rfl, rfl, ?_, by decide⟩
  intro s hs
  simp only [List.mem_cons, List.not_mem_nil, or_false, not_or] at hs
  obtain ⟨h1, h2, h3, h4⟩ := hs
  simp [get_config, h1, h2, h3, h4]

/-- Witness for C3: the error branch at the concrete flag value "foo". -/
theorem get_config_dispatch_witness :
    get_config "foo" = .error ("Invalid model: %s", "foo") :=
  get_config_dispatch.2.2.2.2.1 "foo" (by decide)

/-- C2: for every epoch index `i` below `max_max_epoch`, the learning
rate assigned before that epoch is
`learning_rate * lr_decay ^ max(i - max_epoch, 0)`; it equals the
initial `learning_rate` for all `i ≤ max_epoch` (the first
`max_epoch + 1` epochs) and thereafter shrinks by a factor `lr_decay`
per epoch. -/
theorem assigned_lr_formula (c : Config) (i : ℕ) (hi : i < c.max_max_epoch) :
    assigned_lr c i
      = c.learning_rate * c.lr_decay ^ (max ((i : ℤ) - (c.max_epoch : ℤ)) 0).toNat
    ∧ (i ≤ c.max_epoch → assigned_lr c i = c.learning_rate)
    ∧ (c.max_epoch ≤ i → assigned_lr c (i + 1) = assigned_lr c i * c.lr_decay) := by
  refine ⟨rfl, ?_, ?_⟩
  · intro h
    have h0 : (max ((i : ℤ) - (c.max_epoch : ℤ)) 0).toNat = 0 := by omega
    simp [assigned_lr, epoch_lr_decay, h0]
  · intro h
    have hs : (max (((i : ℕ) + 1 : ℤ) - (c.max_epoch : ℤ)) 0).toNat
        = (max ((i : ℤ) - (c.max_epoch : ℤ)) 0).toNat + 1 := by omega
    simp only [assigned_lr, epoch_lr_decay]
    push_cast
    rw [hs, pow_succ]
    ring

/-- Witness for C2 at `SmallConfig`, epoch 2: within the initial
plateau the assigned rate is the initial learning rate. -/
theorem assigned_lr_formula_witness :
    (2 : ℕ) < SmallConfig.max_max_epoch
    ∧ assigned_lr SmallConfig 2 = SmallConfig.learning_rate :=
  ⟨by decide, (assigned_lr_formula SmallConfig 2 (by decide)).2.1 (by decide)⟩

/-- C9: every shipped config has `0 < lr_decay ≤ 1`, the sequence of
assigned learning rates is non-increasing, and when `lr_decay < 1` it is
strictly decreasing from epoch index `max_epoch + 1` onward. -/
theorem lr_sequence_monotone (c : Config) (hc : c ∈ shippedConfigs) :
    (0 < c.lr_decay ∧ c.lr_decay ≤ 1)
    ∧ (∀ i : ℕ, assigned_lr c (i + 1) ≤ assigned_lr c i)
    ∧ (c.lr_decay < 1 → ∀ i : ℕ, c.max_epoch + 1 ≤ i →
        assigned_lr c (i + 1) < assigned_lr c i) := by
  have hfields : 0 < c.lr_decay ∧ c.lr_decay ≤ 1 ∧ 0 < c.learning_rate := by
    simp only [shippedConfigs, List.mem_cons, List.not_mem_nil, or_false] at hc
    rcases hc with rfl | rfl | rfl | rfl <;>
      norm_num [SmallConfig, MediumConfig, LargeConfig, TestConfig]
  obtain ⟨hd0, hd1, hlr⟩ := hfields
  refine ⟨⟨hd0, hd1⟩, ?_, ?_⟩
  · intro i
    have hmono : (max ((i : ℤ) - (c.max_epoch : ℤ)) 0).toNat
        ≤ (max (((i : ℕ) + 1 : ℤ) - (c.max_epoch : ℤ)) 0).toNat := by omega
    have hpow := pow_le_pow_of_le_one hd0.le hd1 hmono
    simpa [assigned_lr, epoch_lr_decay] using
      mul_le_mul_of_nonneg_left hpow hlr.le
  · intro hdlt i hi
    have hstep : (max ((i : ℤ) - (c.max_epoch : ℤ)) 0).toNat
        < (max (((i : ℕ) + 1 : ℤ) - (c.max_epoch : ℤ)) 0).toNat := by omega
    have hpow := pow_lt_pow_right_of_lt_one₀ hd0 hdlt hstep
    simpa [assigned_lr, epoch_lr_decay] using
      mul_lt_mul_of_pos_left hpow hlr

/-- Witness for C9 at `SmallConfig`: one non-strict step and one strict
step past the plateau. -/
theorem lr_sequence_monotone_witness :
    assigned_lr SmallConfig 6 ≤ assigned_lr SmallConfig 5
    ∧ assigned_lr SmallConfig 7 < assigned_lr SmallConfig 6 :=
  ⟨(lr_sequence_monotone SmallConfig (by simp [shippedConfigs])).2.1 5,
   (lr_sequence_monotone SmallConfig (by simp [shippedConfigs])).2.2
     (by norm_num [SmallConfig]) 6 (by decide)⟩

/-- Counterexample for C4: with `SmallConfig` (the default flag value),
`keep_prob = 1`, so the training model applies no dropout at all — the
guard `is_training and config.keep_prob < 1` is false. -/
theorem small_config_no_dropout : ¬ trainingDropoutEverywhere SmallConfig := by
  intro h
  exact absurd h.2.2.2 (by norm_num [SmallConfig])

/-- C4 (amended): for every configuration with `keep_prob < 1` — among
the shipped configs, medium and large — the training-mode model is a
stack of `num_layers` LSTM cells with dropout on the input features and
on each cell's output; for every configuration with `keep_prob ≥ 1` —
small (the default) and test, both with `keep_prob = 1` — the training
model is a stack of `num_layers` plain LSTM cells and no dropout is
applied to the inputs or to any cell's output. -/
theorem training_dropout_characterization (c : Config) :
    (c.keep_prob < 1 → trainingDropoutEverywhere c)
    ∧ (1 ≤ c.keep_prob →
        buildCellStack true c
          = List.replicate c.num_layers (RNNCell.basicLSTM c.hidden_size 0)
        ∧ ¬ inputDropoutApplied true c) := by
  constructor
  · intro hkp
    have hcells : buildCellStack true c
        = List.replicate c.num_layers
            (.dropoutWrapper (.basicLSTM c.hidden_size 0) c.keep_prob) := by
      simp [buildCellStack, hkp]
    refine ⟨by rw [hcells]; exact List.length_replicate _ _, ?_, rfl, hkp⟩
    intro cell hcell
    rw [hcells] at hcell
    rw [List.eq_of_mem_replicate hcell]
    trivial
  · intro hkp
    have hnlt : ¬ c.keep_prob < 1 := not_lt.mpr hkp
    refine ⟨?_, ?_⟩
    · simp [buildCellStack, hnlt]
    · intro h
      exact hnlt h.2

/-- Witness for the amended C4: `MediumConfig` (`keep_prob = 1/2`) gets
dropout everywhere; `TestConfig` (`keep_prob = 1`) gets a plain LSTM
stack and no input dropout. -/
theorem training_dropout_witness :
    trainingDropoutEverywhere MediumConfig
    ∧ buildCellStack true TestConfig
        = List.replicate TestConfig.num_layers
            (RNNCell.basicLSTM TestConfig.hidden_size 0)
    ∧ ¬ inputDropoutApplied true TestConfig :=
  ⟨(training_dropout_characterization MediumConfig).1 (by norm_num [MediumConfig]),
   ((training_dropout_characterization TestConfig).2 (by norm_num [TestConfig])).1,
   ((training_dropout_characterization TestConfig).2 (by norm_num [TestConfig])).2⟩

/-- The unrolling loop produces, in increasing time-step order, the
output of the cell applied to the `t`-th input and the state after `t`
prior applications, and threads the state through all applications. -/
theorem unrollLoop_eq (n : ℕ) :
    (unrollLoop n).1
      = (List.range n).map (fun t => .cellOut (.input t) (stateExpr t))
    ∧ (unrollLoop n).2 = stateExpr n := by
  induction n with
  | zero => exact ⟨rfl, rfl⟩
  | succ m ih =>
    refine ⟨?_, ?_⟩
    · show (unrollLoop m).1 ++ [.cellOut (.input m) (unrollLoop m).2] = _
      rw [ih.1, ih.2, List.range_succ, List.map_append]
      simp
    · show TExpr.cellState (.input m) (unrollLoop m).2 = _
      rw [ih.2]; rfl

/-- The reuse flags are off at time step 0 and on at every later step. -/
theorem reuseFlags_eq (n : ℕ) (hn : 1 ≤ n) :
    reuseFlags n = false :: List.replicate (n - 1) true := by
  induction n with
  | zero => omega
  | succ m ih =>
    rcases Nat.eq_zero_or_pos m with rfl | hm
    · rfl
    · rw [reuseFlags, List.range_succ, List.map_append, ← reuseFlags,
        ih hm, Nat.succ_sub_one]
      have hrep : List.replicate (m - 1) true ++ [true]
          = List.replicate m true := by
        rw [← List.replicate_succ' (m - 1) true]
        congr 1
        omega
      have hdm : decide (0 < m) = true := by simpa using hm
      simp only [List.map_cons, List.map_nil, hdm]
      rw [List.cons_append, hrep]

/-- C6: the graph applies the multi-layer cell exactly `num_steps`
times, in increasing time-step order (each application consumes the
state produced by the previous one), enables variable reuse exactly from
the second step onward, and computes the logits by the single affine map
(`softmax_w`, `softmax_b`) applied to the concatenation of all
`num_steps` cell outputs. -/
theorem unrolled_graph_structure (num_steps : ℕ) :
    (unrollLoop num_steps).1
      = (List.range num_steps).map (fun t => .cellOut (.input t) (stateExpr t))
    ∧ (unrollLoop num_steps).1.length = num_steps
    ∧ buildLogits num_steps
      = ⟨"softmax_w", "softmax_b",
         (List.range num_steps).map (fun t => .cellOut (.input t) (stateExpr t))⟩
    ∧ (1 ≤ num_steps →
        reuseFlags num_steps = false :: List.replicate (num_steps - 1) true) := by
  refine ⟨(unrollLoop_eq num_steps).1, ?_, ?_, reuseFlags_eq num_steps⟩
  · rw [(unrollLoop_eq num_steps).1]
    simp
  · show LogitsGraph.mk "softmax_w" "softmax_b" (unrollLoop num_steps).1 = _
    rw [(unrollLoop_eq num_steps).1]

/-- Witness for C6 at `num_steps = 3`: the concrete reuse-flag list. -/
theorem unrolled_graph_structure_witness :
    reuseFlags 3 = false :: List.replicate 2 true :=
  (unrolled_graph_structure 3).2.2.2 (by decide)

/-- Closed form of `run_epoch`'s loop: starting from any accumulator,
the fold adds the sum of the batch costs, `num_steps` per batch, and the
per-batch correct counts. -/
theorem runEpochFoldl_eq (num_steps batch_size : ℕ) (a : EpochAcc)
    (batches : List Batch) :
    batches.foldl (runEpochStep num_steps batch_size) a
      = ⟨a.costs + (batches.map (batchCost batch_size)).sum,
         a.iters + num_steps * batches.length,
         a.true_count + (batches.map batchCorrectCount).sum⟩ := by
  induction batches generalizing a with
  | nil => simp
  | cons b bs ih =>
    rw [List.foldl_cons, ih]
    simp only [runEpochStep, List.map_cons, List.sum_cons, List.length_cons,
      EpochAcc.mk.injEq]
    refine ⟨by ring, by ring, by ring⟩

/-- The totals of an epoch: summed batch costs, `num_steps` times the
number of batches, and the summed correct counts. -/
theorem runEpochTotals_eq (num_steps batch_size : ℕ) (batches : List Batch) :
    runEpochTotals num_steps batch_size batches
      = ⟨(batches.map (batchCost batch_size)).sum,
         num_steps * batches.length,
         (batches.map batchCorrectCount).sum⟩ := by
  rw [runEpochTotals, runEpochFoldl_eq]
  simp

/-- C1: when the data yields at least one batch, `run_epoch` returns
`exp(costs / iters)` where `costs` is the sum over batches of
`reduce_sum(loss) / batch_size` and `iters` is `num_steps` times the
number of batches — exp of the mean loss per time step. -/
theorem run_epoch_perplexity (num_steps batch_size : ℕ)
    (batches : List Batch) (hne : batches ≠ []) :
    run_epoch num_steps batch_size batches
      = Real.exp ((((batches.map (batchCost batch_size)).sum : ℚ) : ℝ)
          / ((num_steps * batches.length : ℕ) : ℝ)) := by
  rw [run_epoch, runEpochTotals_eq]

/-- Witness for C1: one batch of two example losses `1` and `2` with
`batch_size = 2` and `num_steps = 3` gives perplexity
`exp((3/2) / 3)`. -/
theorem run_epoch_perplexity_witness :
    run_epoch 3 2 [⟨[1, 2], []⟩] = Real.exp ((3/2 : ℝ) / 3) := by
  have h := run_epoch_perplexity 3 2 [⟨[1, 2], []⟩] (List.cons_ne_nil _ _)
  rw [h]
  norm_num [batchCost]

/-- C5: the per-step accuracy is `true_count / (iters * batch_size)`
where `true_count` counts rows whose top-1 logit matches the target;
when every batch carries `batch_size * num_steps` logits rows the
quotient lies in `[0, 1]`; and it is written to the summary as the
scalar named "accuracy". -/
theorem run_epoch_accuracy (num_steps batch_size : ℕ) (batches : List Batch)
    (hrows : ∀ b ∈ batches, b.rows.length = batch_size * num_steps) :
    runEpochPrecision num_steps batch_size batches
      = ((runEpochTotals num_steps batch_size batches).true_count : ℚ)
        / (((runEpochTotals num_steps batch_size batches).iters : ℚ) * batch_size)
    ∧ 0 ≤ runEpochPrecision num_steps batch_size batches
    ∧ runEpochPrecision num_steps batch_size batches ≤ 1
    ∧ (runEpochEndSummaries num_steps batch_size batches).get? 1
        = some ("accuracy",
            (runEpochPrecision num_steps batch_size batches : ℝ)) := by
  have hT : (batches.map batchCorrectCount).sum
      ≤ batches.length * (batch_size * num_steps) := by
    have hb : ∀ x ∈ batches.map batchCorrectCount, x ≤ batch_size * num_steps := by
      intro x hx
      obtain ⟨b, hbmem, rfl⟩ := List.mem_map.mp hx
      calc batchCorrectCount b ≤ b.rows.length := List.length_filter_le _ _
        _ = batch_size * num_steps := hrows b hbmem
    have h := List.sum_le_card_nsmul (batches.map batchCorrectCount)
      (batch_size * num_steps) hb
    simpa using h
  have hT2 : (batches.map batchCorrectCount).sum
      ≤ num_steps * batches.length * batch_size := by
    calc (batches.map batchCorrectCount).sum
        ≤ batches.length * (batch_size * num_steps) := hT
      _ = num_steps * batches.length * batch_size := by ring
  refine ⟨rfl, ?_, ?_, rfl⟩
  · rw [runEpochPrecision]
    positivity
  · rw [runEpochPrecision, runEpochTotals_eq]
    apply div_le_one_of_le₀
    · exact_mod_cast hT2
    · positivity

/-- Witness for C5: one batch, `batch_size = num_steps = 1`, a single
row whose top logit is the target's, giving accuracy within `[0, 1]`. -/
theorem run_epoch_accuracy_witness :
    0 ≤ runEpochPrecision 1 1 [⟨[0], [⟨[3, 1], 0⟩]⟩]
    ∧ runEpochPrecision 1 1 [⟨[0], [⟨[3, 1], 0⟩]⟩] ≤ 1 := by
  have hr : ∀ b ∈ ([⟨[0], [⟨[3, 1], 0⟩]⟩] : List Batch),
      b.rows.length = 1 * 1 := by
    intro b hb
    rw [List.mem_singleton] at hb
    subst hb
    rfl
  exact ⟨(run_epoch_accuracy 1 1 _ hr).2.1, (run_epoch_accuracy 1 1 _ hr).2.2.1⟩

/-- The training loop performs no data reads. -/
theorem epochLoop_no_reads (n : ℕ) :
    (epochLoopEvents n).filterMap Event.readFile = [] := by
  induction n with
  | zero => rfl
  | succ m ih =>
    rw [epochLoopEvents, List.filterMap_append, ih]
    rfl

/-- Every event of the training loop is a loop-phase event. -/
theorem epochLoop_phase (n : ℕ) :
    ∀ e ∈ epochLoopEvents n, Event.phase e = 2 := by
  induction n with
  | zero =>
    intro e he
    simp [epochLoopEvents] at he
  | succ m ih =>
    intro e he
    rw [epochLoopEvents, List.mem_append] at he
    rcases he with h | h
    · exact ih e h
    · simp only [epochBody, List.mem_cons, List.not_mem_nil, or_false] at h
      rcases h with rfl | rfl | rfl <;> rfl

/-- The loop, unrolled in source order, is iteration bodies for
`i = 0, 1, ..., n-1` in increasing order. -/
theorem epochLoop_flat (n : ℕ) :
    epochLoopEvents n = (List.range n).flatMap epochBody := by
  induction n with
  | zero => rfl
  | succ m ih =>
    rw [epochLoopEvents, ih, List.range_succ]
    simp

/-- The test epoch is not part of the training loop. -/
theorem testEpoch_not_in_loop (n : ℕ) :
    Event.testEpoch ∉ epochLoopEvents n := by
  intro h
  have := epochLoop_phase n _ h
  simp [Event.phase] at this

/-- The phases of the `main` trace, segment by segment. -/
theorem mainEvents_phases (mme : ℕ) :
    (mainEvents mme).map Event.phase
      = ([0, 0, 0, 0, 0] ++ ([1, 1, 1, 1, 1]
          ++ (List.replicate (3 * mme) 2 ++ [3])) : List ℕ) := by
  have hloopmap : ∀ n : ℕ,
      (epochLoopEvents n).map Event.phase = List.replicate (3 * n) 2 := by
    intro n
    induction n with
    | zero => rfl
    | succ m ih =>
      rw [epochLoopEvents, List.map_append, ih]
      rw [show 3 * (m + 1) = 3 * m + 3 by ring, List.replicate_add]
      rfl
  rw [mainEvents]
  simp only [List.map_append, hloopmap]
  rfl

/-- C7: `main` reads exactly the five conventional filenames in source
order, logs to "train/lstm3s", keeps only the first 8000 test rows
(a prefix of length `min 8000 (number of rows)`), and declares no
data-path flag. -/
theorem main_fixed_io (mme : ℕ) :
    (mainEvents mme).filterMap Event.readFile
      = ["Data11-17.txt", "valid18-20.txt", "Data21-25.txt",
         "Data4-10.txt", "Data26-29.txt"]
    ∧ Event.makeSummaryWriter "train/lstm3s" ∈ mainEvents mme
    ∧ (∀ rows : List (List ℚ),
        (truncateTestRows rows).length = min 8000 rows.length
        ∧ ∀ i : ℕ, i < 8000 →
            (truncateTestRows rows).get? i = rows.get? i)
    ∧ "data_path" ∉ declaredFlagNames := by
  refine ⟨?_, ?_, ?_, by decide⟩
  · rw [mainEvents]
    simp only [List.filterMap_append, epochLoop_no_reads]
    rfl
  · rw [mainEvents]
    simp [graphBuildEvents]
  · intro rows
    refine ⟨by simp [truncateTestRows], ?_⟩
    intro i hi
    rw [truncateTestRows, List.get?_eq_getElem?, List.get?_eq_getElem?,
      List.getElem?_take_of_lt hi]

/-- Witness for C7: truncating a concrete two-row test set preserves
row 0. -/
theorem main_fixed_io_witness :
    (truncateTestRows [[(1 : ℚ)], [2]]).get? 0
      = ([[(1 : ℚ)], [2]] : List (List ℚ)).get? 0 :=
  ((main_fixed_io 1).2.2.1 [[(1 : ℚ)], [2]]).2 0 (by decide)

/-- C8: the phases of `main`'s trace are monotone — all data loading
precedes all graph construction and variable init, which precede the
training loop, which precedes the test epoch; the loop runs, for each
`i` in increasing order, a learning-rate assignment, one training epoch,
then one validation epoch; and the single test epoch is the last
event. -/
theorem main_temporal_order (mme : ℕ) :
    ((mainEvents mme).map Event.phase).Pairwise (fun a b => a ≤ b)
    ∧ epochLoopEvents mme = (List.range mme).flatMap epochBody
    ∧ (mainEvents mme).getLast? = some Event.testEpoch
    ∧ (mainEvents mme).count Event.testEpoch = 1 := by
  refine ⟨?_, epochLoop_flat mme, ?_, ?_⟩
  · rw [mainEvents_phases]
    apply List.pairwise_append.mpr
    refine ⟨by decide, ?_, ?_⟩
    · apply List.pairwise_append.mpr
      refine ⟨by decide, ?_, ?_⟩
      · apply List.pairwise_append.mpr
        refine ⟨List.pairwise_replicate.mpr (Or.inr (le_refl 2)), by decide, ?_⟩
        · intro a ha b hb
          rw [List.eq_of_mem_replicate ha, List.mem_singleton.mp hb]
          omega
      · intro a ha b hb
        rw [List.mem_append] at hb
        have ha1 : a = 1 := by
          simp only [List.mem_cons, List.not_mem_nil, or_false] at ha
          rcases ha with rfl | rfl | rfl | rfl | rfl <;> rfl
        rcases hb with h | h
        · rw [ha1, List.eq_of_mem_replicate h]
          omega
        · rw [ha1, List.mem_singleton.mp h]
          omega
    · intro a ha b hb
      have ha0 : a = 0 := by
        simp only [List.mem_cons, List.not_mem_nil, or_false] at ha
        rcases ha with rfl | rfl | rfl | rfl | rfl <;> rfl
      rw [ha0]
      exact Nat.zero_le b
  · have hsplit : mainEvents mme
        = (dataLoadEvents ++ graphBuildEvents ++ epochLoopEvents mme)
            ++ [Event.testEpoch] := by
      rw [mainEvents]
    rw [hsplit, List.getLast?_concat]
  · rw [mainEvents]
    simp only [List.count_append]
    have h1 : dataLoadEvents.count Event.testEpoch = 0 := by decide
    have h2 : graphBuildEvents.count Event.testEpoch = 0 := by decide
    have h3 : (epochLoopEvents mme).count Event.testEpoch = 0 :=
      List.count_eq_zero.mpr (testEpoch_not_in_loop mme)
    have h4 : ([Event.testEpoch] : List Event).count Event.testEpoch = 1 := by
      decide
    omega

/-- C10: the two `get_config()` calls allocate distinct objects, so
mutating `eval_config.batch_size` and `eval_config.num_steps` to 1
leaves every field of the training config unchanged; the training and
validation models (built from `config`) keep the original `batch_size`
and `num_steps`, while the test model (built from `eval_config`) uses
batch size 1 and a single step. -/
theorem eval_config_mutation_frame (model : String) (c : Config)
    (h : get_config model = .ok c) :
    ∃ s : ConfigStore, ∃ rTrain rEval : ℕ,
      mainConfigSetup model = .ok (s, rTrain, rEval)
      ∧ rTrain ≠ rEval
      ∧ s.read rTrain = some c
      ∧ s.read rEval = some { c with batch_size := 1, num_steps := 1 }
      ∧ (s.read rTrain).map modelDims = some ⟨c.batch_size, c.num_steps⟩
      ∧ (s.read rEval).map modelDims = some ⟨1, 1⟩ := by
  refine ⟨⟨[c, { c with batch_size := 1, num_steps := 1 }]⟩, 0, 1,
    ?_, by decide, rfl, rfl, rfl, rfl⟩
  rw [mainConfigSetup, h]
  rfl

/-- Witness for C10 at `model = "small"`. -/
theorem eval_config_mutation_frame_witness :
    ∃ s : ConfigStore, ∃ rTrain rEval : ℕ,
      mainConfigSetup "small" = .ok (s, rTrain, rEval)
      ∧ rTrain ≠ rEval
      ∧ s.read rTrain = some SmallConfig
      ∧ s.read rEval = some { SmallConfig with batch_size := 1, num_steps := 1 }
      ∧ (s.read rTrain).map modelDims
          = some ⟨SmallConfig.batch_size, SmallConfig.num_steps⟩
      ∧ (s.read rEval).map modelDims = some ⟨1, 1⟩ :=
  eval_config_mutation_frame "small" SmallConfig rfl

end Lstm1
